import Mathlib

/-!
Shallow embedding of the slk-calendar-sync reconciliation engine
(src/models.py, src/slk_api.py, src/calendar_service.py, src/main.py).

Machine datetimes are modelled as a record of Nat fields; the Python
`datetime.strptime(v, "%Y-%m-%d %H:%M:%S")` call is modelled by
`parseMatchDate`; the Google Calendar backend is modelled as an explicit
state (`Backend`) with failure flags for each kind of API call.
-/

namespace SLK

/-- A parsed wall-clock instant, the image of Python's
`datetime.strptime(v, "%Y-%m-%d %H:%M:%S")`. -/
structure PyDateTime where
  year : Nat
  month : Nat
  day : Nat
  hour : Nat
  minute : Nat
  second : Nat
deriving DecidableEq, Repr

def isLeapYear (y : Nat) : Bool :=
  (y % 4 == 0 && y % 100 != 0) || y % 400 == 0

def daysInMonth (y m : Nat) : Nat :=
  if m == 2 then (if isLeapYear y then 29 else 28)
  else if m == 4 || m == 6 || m == 9 || m == 11 then 30
  else 31

/-- Python `str.split(sep)` for a one-character separator (structural
recursion over the character list, so that proofs can evaluate it). -/
def splitOnChar (sep : Char) : List Char → List (List Char)
  | [] => [[]]
  | c :: rest =>
    let r := splitOnChar sep rest
    if c == sep then [] :: r
    else
      match r with
      | h :: t => (c :: h) :: t
      | [] => [[c]]

/-- Decimal value of a digit list. -/
def digitsVal (cs : List Char) : Nat :=
  cs.foldl (fun acc c => acc * 10 + (c.toNat - 48)) 0

/-- A digit field of `strptime`: non-empty, all digits, width-bounded. -/
def digitField (cs : List Char) (maxLen : Nat) : Option Nat :=
  if cs.length == 0 || cs.length > maxLen || !(cs.all Char.isDigit) then none
  else some (digitsVal cs)

/-- Model of `datetime.strptime(v, "%Y-%m-%d %H:%M:%S")`: `some` exactly when
Python's parse succeeds (fixed `YYYY-MM-DD HH:MM:SS` shape with valid
calendar ranges), `none` when it raises `ValueError`. -/
def parseMatchDate (s : String) : Option PyDateTime :=
  match splitOnChar ' ' s.data with
  | [d, t] =>
    match splitOnChar '-' d, splitOnChar ':' t with
    | [ys, mos, das], [hs, mis, ses] => do
      let y ← digitField ys 4
      let mo ← digitField mos 2
      let da ← digitField das 2
      let h ← digitField hs 2
      let mi ← digitField mis 2
      let se ← digitField ses 2
      if 1 ≤ y && 1 ≤ mo && mo ≤ 12 && 1 ≤ da && da ≤ daysInMonth y mo
          && h ≤ 23 && mi ≤ 59 && se ≤ 59 then
        some ⟨y, mo, da, h, mi, se⟩
      else none
    | _, _ => none
  | _ => none

/-- `v.startswith(("http://", "https://"))`. -/
def isHttpUrl (s : String) : Bool :=
  "http://".data.isPrefixOf s.data || "https://".data.isPrefixOf s.data

/-- Python `if v and not v.startswith(("http://", "https://")): raise`:
an absent or empty ("falsy") value passes; otherwise the URL scheme check
applies. -/
def optUrlOk (v : Option String) : Bool :=
  match v with
  | none => true
  | some s => s == "" || isHttpUrl s

/-- Python `str.strip()`. -/
def pyStrip (s : String) : String :=
  String.mk (((s.data.dropWhile Char.isWhitespace).reverse.dropWhile
    Char.isWhitespace).reverse)

/-- The regex `^\d+\s*-\s*\d+$` of `MatchData.validate_result`. -/
def resultPatternOk (s : String) : Bool :=
  let cs := s.toList
  let ds := cs.takeWhile Char.isDigit
  if ds.isEmpty then false
  else
    let r1 := (cs.drop ds.length).dropWhile Char.isWhitespace
    match r1 with
    | '-' :: r2 =>
      let r3 := r2.dropWhile Char.isWhitespace
      !r3.isEmpty && r3.all Char.isDigit
    | _ => false

/-- `MatchData.validate_result`: `if v and not re.match(r'^\d+\s*-\s*\d+$', v.strip()): raise`. -/
def resultOk (v : Option String) : Bool :=
  match v with
  | none => true
  | some s => s == "" || resultPatternOk (pyStrip s)

/-- `Scorer`-style entry: the feed supplies either a bare name string or a
structured `{player, time}` pair (`Union[str, Dict[str, str]]`). -/
inductive ScorerEntry
  | nameOnly (s : String)
  | detailed (player : String) (time : String)
deriving DecidableEq, Repr

/-- `BroadcastChannel` (models.py): name, logo, link, with the link
validated by `validate_url`. -/
structure BroadcastChannel where
  name : String
  logo : String
  link : String
deriving DecidableEq, Repr

/-- `Highlight` (models.py). -/
structure Highlight where
  thumbnail : Option String := none
  video : Option String := none
deriving DecidableEq, Repr

/-- A raw decoded feed record, before pydantic validation: every required
field may be missing. -/
structure RawChannel where
  name : Option String := none
  logo : Option String := none
  link : Option String := none
deriving DecidableEq, Repr

structure RawMatch where
  home_team : Option String := none
  home_team_short_name : Option String := none
  home_team_logo : Option String := none
  away_team : Option String := none
  away_team_logo : Option String := none
  away_team_short_name : Option String := none
  match_date : Option String := none
  date : Option String := none
  time : Option String := none
  day : Option String := none
  match_time : Option String := none
  venue : Option String := none
  link : Option String := none
  completed : Option Int := none
  is_cancel : Option Int := none
  is_started : Option Int := none
  result : Option String := none
  match_id : Option Int := none
  stat_match_id : Option Int := none
  home_scorers : List ScorerEntry := []
  away_scorers : List ScorerEntry := []
  full_video_url : Option String := none
  broadcast : List RawChannel := []
  highlight : Highlight := {}
deriving DecidableEq, Repr

/-- `MatchData` (models.py), after validation. -/
structure MatchData where
  home_team : String
  home_team_short_name : String
  home_team_logo : String
  away_team : String
  away_team_logo : String
  away_team_short_name : String
  match_date : String
  date : String
  time : String
  day : String
  match_time : Option String
  venue : Option String
  link : Option String
  completed : Nat
  is_cancel : Nat
  is_started : Nat
  result : Option String
  match_id : Nat
  stat_match_id : Nat
  home_scorers : List ScorerEntry
  away_scorers : List ScorerEntry
  full_video_url : Option String
  broadcast : List BroadcastChannel
  highlight : Highlight
deriving DecidableEq, Repr

/-- Nested validation of one `BroadcastChannel` entry. -/
def validateChannel (c : RawChannel) : Option BroadcastChannel := do
  let n ← c.name
  let lg ← c.logo
  let lk ← c.link
  if lk == "" || isHttpUrl lk then some ⟨n, lg, lk⟩ else none

/-- `MatchData.model_validate`: pydantic field presence checks, the
`ge=0, le=1` bounds on the status flags, `gt=0` on the IDs, and the four
field validators (`match_date`, `link`, `full_video_url`, `result`),
plus nested `BroadcastChannel` validation. `some` on acceptance,
`none` on `ValidationError`. -/
def model_validate (r : RawMatch) : Option MatchData :=
  match r.home_team, r.home_team_short_name, r.home_team_logo,
        r.away_team, r.away_team_logo, r.away_team_short_name,
        r.match_date, r.date, r.time, r.day,
        r.completed, r.is_cancel, r.is_started, r.match_id, r.stat_match_id,
        r.broadcast.mapM validateChannel with
  | some home_team, some home_team_short_name, some home_team_logo,
    some away_team, some away_team_logo, some away_team_short_name,
    some match_date, some date, some time, some day,
    some completed, some is_cancel, some is_started,
    some match_id, some stat_match_id, some broadcast =>
    if (0 ≤ completed ∧ completed ≤ 1) ∧ (0 ≤ is_cancel ∧ is_cancel ≤ 1)
        ∧ (0 ≤ is_started ∧ is_started ≤ 1)
        ∧ (0 < match_id) ∧ (0 < stat_match_id)
        ∧ (parseMatchDate match_date).isSome = true
        ∧ optUrlOk r.link = true ∧ optUrlOk r.full_video_url = true
        ∧ resultOk r.result = true then
      some
        { home_team, home_team_short_name, home_team_logo,
          away_team, away_team_logo, away_team_short_name,
          match_date, date, time, day,
          match_time := r.match_time, venue := r.venue, link := r.link,
          completed := completed.toNat, is_cancel := is_cancel.toNat,
          is_started := is_started.toNat,
          result := r.result, match_id := match_id.toNat,
          stat_match_id := stat_match_id.toNat,
          home_scorers := r.home_scorers, away_scorers := r.away_scorers,
          full_video_url := r.full_video_url, broadcast,
          highlight := r.highlight }
    else none
  | _, _, _, _, _, _, _, _, _, _, _, _, _, _, _, _ => none

/-- `MatchData.is_upcoming`. -/
def MatchData.is_upcoming (m : MatchData) : Bool :=
  m.completed == 0 && m.is_cancel == 0

/-- `MatchData.is_completed`. -/
def MatchData.is_completed (m : MatchData) : Bool :=
  m.completed == 1

/-- `MatchData.is_cancelled`. -/
def MatchData.is_cancelled (m : MatchData) : Bool :=
  m.is_cancel == 1

/-- `MatchData.get_datetime`: the same `strptime` call as the validator,
returning `none` instead of raising. -/
def MatchData.get_datetime (m : MatchData) : Option PyDateTime :=
  parseMatchDate m.match_date

/-! Configuration constants (config.py). -/

def SLK_API_URL : String := "https://www.superleaguekerala.com/api/match-tickets"

def EVENT_DURATION_HOURS : Nat := 2

def TIMEZONE : String := "Asia/Kolkata"

/-- `SLKAPIClient.fetch_matches`, with the already-decoded raw JSON array as
input (the HTTP GET is the external Feed Source): validate each raw record,
skip (log-and-continue) the invalid ones. -/
def fetch_matches (raw : List RawMatch) : List MatchData :=
  raw.filterMap model_validate

/-- `SLKAPIClient.get_upcoming_matches`. -/
def get_upcoming_matches (raw : List RawMatch) : List MatchData :=
  (fetch_matches raw).filter MatchData.is_upcoming

/-- The `url_mappings` table of `SLKAPIClient._fix_broadcast_urls`. -/
def url_mappings (name : String) : Option String :=
  if name == "SPORTS.COM" then some "https://sports.com/en/slk"
  else if name == "SONY SPORTS" then some "https://www.sonysportsnetwork.com/"
  else if name == "DD MALAYALAM" then some "https://prasarbharati.gov.in/dd-malayalam/"
  else if name == "ETISALAT" then some "https://www.etisalat.ae"
  else none

/-- `SLKAPIClient._fix_broadcast_urls`: `url_mappings.get(channel.name, channel.link)`. -/
def fix_broadcast_urls (broadcast_channels : List BroadcastChannel) : List BroadcastChannel :=
  broadcast_channels.map fun channel =>
    { name := channel.name, logo := channel.logo,
      link := (url_mappings channel.name).getD channel.link }

/-- The dictionary returned by `SLKAPIClient.format_match_for_calendar`. -/
structure FormattedMatch where
  title : String
  datetime : Option PyDateTime
  venue : String
  home_team : String
  away_team : String
  home_team_logo : String
  away_team_logo : String
  date : String
  time : String
  broadcast_channels : String
  broadcast : List BroadcastChannel
  ticket_link : String
  match_id : Nat
  completed : Nat
  result : Option String
  home_scorers : List ScorerEntry
  away_scorers : List ScorerEntry
  highlight_video : Option String
  full_video_url : Option String
deriving DecidableEq, Repr

/-- Python `sep.join(xs)`. -/
def pyJoin (sep : String) : List String → String
  | [] => ""
  | [x] => x
  | x :: xs => x ++ sep ++ pyJoin sep xs

/-- Python truthiness of an optional string (`None` and `""` are falsy). -/
def optTruthy (v : Option String) : Bool :=
  match v with
  | none => false
  | some s => s != ""

/-- `v if v else "Not Available"`. -/
def orNotAvailable (v : Option String) : String :=
  match v with
  | none => "Not Available"
  | some s => if s == "" then "Not Available" else s

/-- The status glyph of completed titles (the literal bytes of the source). -/
def completedGlyph : String := "üèÜ"

/-- The status glyph of cancelled titles. -/
def cancelledGlyph : String := "‚ùå"

/-- The status glyph of upcoming titles. -/
def upcomingGlyph : String := "‚öΩ"

/-- `SLKAPIClient.format_match_for_calendar`. -/
def format_match_for_calendar (m : MatchData) : FormattedMatch :=
  let match_datetime := m.get_datetime
  let fixed_broadcast_channels := fix_broadcast_urls m.broadcast
  let broadcast_names := fixed_broadcast_channels.map BroadcastChannel.name
  let broadcast_text :=
    if broadcast_names.isEmpty then "Not Available"
    else pyJoin ", " broadcast_names
  let ticket_link := orNotAvailable m.link
  let event_title :=
    if m.is_completed then
      let result := (m.result).getD ""
      if result != "" then
        completedGlyph ++ " " ++ m.home_team ++ " vs " ++ m.away_team
          ++ " (" ++ result ++ ") | SLK \x2725"
      else
        completedGlyph ++ " " ++ m.home_team ++ " vs " ++ m.away_team
          ++ " (Completed) | SLK \x2725"
    else if m.is_cancelled then
      cancelledGlyph ++ " " ++ m.home_team ++ " vs " ++ m.away_team
        ++ " (Cancelled) | SLK \x2725"
    else
      upcomingGlyph ++ " " ++ m.home_team ++ " vs " ++ m.away_team
        ++ " | SLK \x2725"
  { title := event_title,
    datetime := match_datetime,
    venue := orNotAvailable m.venue,
    home_team := m.home_team,
    away_team := m.away_team,
    home_team_logo := m.home_team_logo,
    away_team_logo := m.away_team_logo,
    date := m.date,
    time := m.time,
    broadcast_channels := broadcast_text,
    broadcast := fixed_broadcast_channels,
    ticket_link := ticket_link,
    match_id := m.match_id,
    completed := m.completed,
    result := m.result,
    home_scorers := m.home_scorers,
    away_scorers := m.away_scorers,
    highlight_video := m.highlight.video,
    full_video_url := m.full_video_url }

/-! Calendar backend model (calendar_service.py). Events are explicit
records; the Google API transport is a state with per-operation failure
flags; an `HttpError` raised by a call is modelled by the corresponding
flag being set. -/

def PyDateTime.nextDay (d : PyDateTime) : PyDateTime :=
  if d.day < daysInMonth d.year d.month then { d with day := d.day + 1 }
  else if d.month < 12 then { d with month := d.month + 1, day := 1 }
  else { d with year := d.year + 1, month := 1, day := 1 }

def PyDateTime.addDays (d : PyDateTime) : Nat → PyDateTime
  | 0 => d
  | n + 1 => d.nextDay.addDays n

/-- `match_datetime + timedelta(hours=h)` (Asia/Kolkata has no DST, so the
wall-clock addition agrees with the Python arithmetic). -/
def PyDateTime.addHours (d : PyDateTime) (h : Nat) : PyDateTime :=
  let total := d.hour + h
  PyDateTime.addDays { d with hour := total % 24 } (total / 24)

/-- A `start`/`end` member of an event body: the localized instant plus the
named timezone, as written by `create_event`/`update_event`. -/
structure EventTime where
  dateTime : PyDateTime
  timeZone : String
deriving DecidableEq, Repr

structure ReminderOverride where
  method : String
  minutes : Nat
deriving DecidableEq, Repr

structure Reminders where
  useDefault : Bool
  overrides : List ReminderOverride
deriving DecidableEq, Repr

structure EventSource where
  title : String
  url : String
deriving DecidableEq, Repr

/-- A calendar event as held by the backend. `otherFields` stands for any
further backend-side keys of the event resource that this program never
touches. -/
structure CalEvent where
  id : String
  summary : String
  description : String
  start : Option EventTime
  end_ : Option EventTime
  location : String
  reminders : Option Reminders
  source : Option EventSource
  extendedPropertiesPrivate : Option (List (String × String))
  recurringEventId : Option String
  otherFields : List (String × String)
deriving DecidableEq, Repr

/-- Backend state: the stored events, an id supply, failure flags for each
API call kind (a set flag makes the call raise `HttpError`), per-event
delete failures, and counters of issued calls. -/
structure Backend where
  events : List CalEvent := []
  nextId : Nat := 0
  listFails : Bool := false
  getFails : Bool := false
  insertFails : Bool := false
  updateFails : Bool := false
  deleteFailIds : List String := []
  listCalls : Nat := 0
  getCalls : Nat := 0
  insertCalls : Nat := 0
  updateCalls : Nat := 0
  deleteCalls : Nat := 0
deriving DecidableEq, Repr

/-- Python `str.upper()` (ASCII, as the channel names are). -/
def pyUpper (s : String) : String :=
  String.mk (s.data.map Char.toUpper)

/-- `.lower().replace(' ', '-')` as applied to team names. -/
def pySlug (s : String) : String :=
  String.mk (s.data.map fun c =>
    let c := c.toLower
    if c == ' ' then '-' else c)

/-- `GoogleCalendarService._format_event_description`. -/
def format_event_description (match_data : FormattedMatch) : String :=
  let broadcast_channel_names := match_data.broadcast.map BroadcastChannel.name
  let completed_header :=
    if match_data.completed == 1 then
      let result := match_data.result
      let highlight_video := match_data.highlight_video
      let full_video_url := match_data.full_video_url
      let match_id := match_data.match_id
      let home_team := pySlug match_data.home_team
      let away_team := pySlug match_data.away_team
      let h1 :=
        if optTruthy result then
          "üèÜ <strong>Final Score: " ++ result.getD ""
            ++ "</strong>\n\n"
        else ""
      let h2 :=
        if match_id != 0 && home_team != "" && away_team != "" then
          let match_center_url := "https://www.superleaguekerala.com/matchcentre/"
            ++ toString match_id ++ "/" ++ home_team ++ "-vs-" ++ away_team
          "üìä <strong>Match Center:</strong> <a href=\x27"
            ++ match_center_url ++ "\x27>View Details & Stats</a>\n\n"
        else ""
      let h3 :=
        if optTruthy highlight_video then
          "üé• <strong>Highlights:</strong> "
            ++ highlight_video.getD "" ++ "\n\n"
        else ""
      let h4 :=
        if optTruthy full_video_url then
          "üì∫ <strong>Full Match:</strong> "
            ++ full_video_url.getD "" ++ "\n\n"
        else ""
      h1 ++ h2 ++ h3 ++ h4
    else ""
  let broadcast_bullets :=
    if !broadcast_channel_names.isEmpty then
      let broadcast_items := match_data.broadcast.map fun channel =>
        if pyUpper channel.name == "SPORTS.COM" && channel.link != "" then
          "‚Ä¢ <a href=\x27" ++ channel.link ++ "\x27>"
            ++ channel.name ++ " (Online Streaming)</a>"
        else
          "‚Ä¢ " ++ channel.name
      "üì∫ Broadcast:\n" ++ pyJoin "\n" broadcast_items
    else "üì∫ Broadcast: Not Available"
  let description :=
    completed_header ++ "üìç Where: " ++ match_data.venue
      ++ "\nüìÖ When: " ++ match_data.date ++ " at "
      ++ match_data.time ++ " IST"
  let description :=
    if match_data.completed == 0 then
      description ++ "\nüé´ Tickets: " ++ match_data.ticket_link
        ++ "\n" ++ broadcast_bullets
    else description
  description
    ++ "\n\nüì∫ <strong>TV Channel Numbers:</strong> <a href=\x27https://www.instagram.com/super.league.kerala/p/DQHVs0Ak3qU/?hl=en\x27>View Channel Guide</a>\n\nFor more info: superleaguekerala.com"

/-- `GoogleCalendarService.create_event` (the `self.service` guard is the
caller's `authenticate` gate). Returns the created event id, or `none` on a
missing datetime or an insert-time `HttpError`. -/
def create_event (b : Backend) (match_data : FormattedMatch) :
    Option String × Backend :=
  match match_data.datetime with
  | none => (none, b)
  | some dt =>
    if b.insertFails then (none, { b with insertCalls := b.insertCalls + 1 })
    else
      let event : CalEvent :=
        { id := "event-" ++ toString b.nextId,
          summary := match_data.title,
          description := format_event_description match_data,
          start := some ⟨dt, TIMEZONE⟩,
          end_ := some ⟨dt.addHours EVENT_DURATION_HOURS, TIMEZONE⟩,
          location := match_data.venue,
          reminders := some ⟨false, [⟨"popup", 60⟩]⟩,
          source := some ⟨"Super League Kerala", "https://www.superleaguekerala.com"⟩,
          extendedPropertiesPrivate :=
            if match_data.match_id != 0 then
              some [("slk_match_id", toString match_data.match_id)]
            else none,
          recurringEventId := none,
          otherFields := [] }
      (some event.id,
       { b with events := b.events ++ [event], nextId := b.nextId + 1,
                insertCalls := b.insertCalls + 1 })

/-- `GoogleCalendarService.clear_all_events`: list, then delete every
non-recurring event, catching and skipping per-event `HttpError`s;
`False` only when the listing itself raises. -/
def clear_all_events (b : Backend) : Bool × Backend :=
  if b.listFails then (false, { b with listCalls := b.listCalls + 1 })
  else
    let remaining := b.events.filter fun event =>
      event.recurringEventId.isSome || b.deleteFailIds.contains event.id
    let attempted := b.events.filter fun event => event.recurringEventId.isNone
    (true,
     { b with events := remaining,
              listCalls := b.listCalls + 1,
              deleteCalls := b.deleteCalls + attempted.length })

/-- `GoogleCalendarService.find_event_by_match_id`: list all events and
scan the private extended-property bag for `slk_match_id == str(match_id)`;
`none` both on absence and on a listing `HttpError`. -/
def find_event_by_match_id (b : Backend) (match_id : Nat) : Option String :=
  if b.listFails then none
  else
    (b.events.find? fun event =>
        (event.extendedPropertiesPrivate.getD []).lookup "slk_match_id"
          == some (toString match_id)).map CalEvent.id

/-- `GoogleCalendarService.update_event`: fetch the stored event, overwrite
summary, description, location and (when a datetime is supplied) the
start/end window, and push it back. `False` on a get- or update-time
`HttpError`. -/
def update_event (b : Backend) (event_id : String)
    (match_data : FormattedMatch) : Bool × Backend :=
  if b.getFails then (false, { b with getCalls := b.getCalls + 1 })
  else
    match b.events.find? (fun e => e.id == event_id) with
    | none => (false, { b with getCalls := b.getCalls + 1 })
    | some event =>
      let event := { event with summary := match_data.title }
      let event :=
        { event with description := format_event_description match_data,
                     location := match_data.venue }
      let event :=
        match match_data.datetime with
        | some dt =>
          { event with start := some ⟨dt, TIMEZONE⟩,
                       end_ := some ⟨dt.addHours EVENT_DURATION_HOURS, TIMEZONE⟩ }
        | none => event
      if b.updateFails then
        (false, { b with getCalls := b.getCalls + 1,
                         updateCalls := b.updateCalls + 1 })
      else
        (true,
         { b with events := b.events.map fun e =>
                    if e.id == event_id then event else e,
                  getCalls := b.getCalls + 1,
                  updateCalls := b.updateCalls + 1 })

/-! Reconciler and dispatcher (main.py). The per-thread
`GoogleCalendarService` authentication outcome is the `authOk` parameter;
the shared calendar state is threaded explicitly (the batch fold models
the fan-out/fan-in, whose per-match outcomes are order-independent
aggregate counts). -/

inductive Action
  | created
  | updated
  | skipped
  | error
deriving DecidableEq, Repr

/-- The per-match result dictionary of `_process_single_match`. -/
structure ProcResult where
  match_id : Nat
  title : String
  action : Action
  success : Bool
  errorMsg : Option String
deriving DecidableEq, Repr

/-- `SLKCalendarSync._process_single_match`. -/
def process_single_match (authOk : Bool) (b : Backend) (m : MatchData)
    (sync_completed : Bool) : ProcResult × Backend :=
  let formatted_match := format_match_for_calendar m
  let base : ProcResult :=
    { match_id := m.match_id, title := formatted_match.title,
      action := .skipped, success := false, errorMsg := none }
  match formatted_match.datetime with
  | none => (base, b)
  | some _ =>
    if formatted_match.completed == 1 && !sync_completed then (base, b)
    else if !authOk then
      ({ base with action := .error,
                   errorMsg := some "Failed to authenticate calendar service" }, b)
    else
      let existing_event_id :=
        if formatted_match.match_id != 0 then
          find_event_by_match_id b formatted_match.match_id
        else none
      match existing_event_id with
      | some event_id =>
        let (ok, b1) := update_event b event_id formatted_match
        if ok then
          ({ base with action := .updated, success := true }, b1)
        else
          ({ base with action := .error,
                       errorMsg := some "Failed to update event" }, b1)
      | none =>
        let (event_id, b1) := create_event b formatted_match
        match event_id with
        | some _ => ({ base with action := .created, success := true }, b1)
        | none =>
          ({ base with action := .error,
                       errorMsg := some "Failed to create event" }, b1)

/-- The statistics dictionary of `sync_matches`. -/
structure Stats where
  created : Nat := 0
  updated : Nat := 0
  errors : Nat := 0
  skipped : Nat := 0
deriving DecidableEq, Repr

def tally (stats : Stats) : Action → Stats
  | .created => { stats with created := stats.created + 1 }
  | .updated => { stats with updated := stats.updated + 1 }
  | .skipped => { stats with skipped := stats.skipped + 1 }
  | .error => { stats with errors := stats.errors + 1 }

/-- `SLKCalendarSync.sync_matches`, with the decoded raw feed batch as
input: choose the match set by mode, then process every match and fold the
outcomes into aggregate counts. -/
def sync_matches (authOk : Bool) (b : Backend) (raw : List RawMatch)
    (sync_completed : Bool) : Stats × Backend :=
  let matchList :=
    if sync_completed then fetch_matches raw else get_upcoming_matches raw
  if matchList.isEmpty then ({}, b)
  else
    matchList.foldl
      (fun acc m =>
        let (result, b1) := process_single_match authOk acc.2 m sync_completed
        (tally acc.1 result.action, b1))
      ({}, b)

/-- `SLKCalendarSync.full_refresh`: authenticate, clear all events, then
sync everything; the Python `{'error': ...}` dictionary is the `.error`
branch of the result. -/
def full_refresh (authOk : Bool) (b : Backend) (raw : List RawMatch) :
    Except String Stats × Backend :=
  if !authOk then (.error "Authentication failed", b)
  else
    let (ok, b1) := clear_all_events b
    if !ok then (.error "Failed to clear events", b1)
    else
      let (stats, b2) := sync_matches authOk b1 raw true
      (.ok stats, b2)

/-! Concrete fixtures used by witnesses and counterexamples. -/

/-- A valid raw upcoming record with full required fields. -/
def rawUp : RawMatch :=
  { home_team := some "Kerala Blasters", home_team_short_name := some "KBFC",
    home_team_logo := some "kbfc.png", away_team := some "Calicut FC",
    away_team_logo := some "cfc.png", away_team_short_name := some "CFC",
    match_date := some "2025-10-20 19:30:00", date := some "20 Oct 2025",
    time := some "07:30 PM", day := some "Monday",
    venue := some "EMS Stadium", link := some "https://tickets.example.com/1",
    completed := some 0, is_cancel := some 0, is_started := some 0,
    match_id := some 101, stat_match_id := some 201,
    broadcast := [{ name := some "SPORTS.COM", logo := some "sc.png",
                    link := some "https://old.example.com" }] }

/-- A valid raw completed record with a `"2 - 1"` result. -/
def rawCompleted : RawMatch :=
  { home_team := some "Forca Kochi", home_team_short_name := some "FK",
    home_team_logo := some "fk.png", away_team := some "Malappuram FC",
    away_team_logo := some "mfc.png", away_team_short_name := some "MFC",
    match_date := some "2025-10-18 19:30:00", date := some "18 Oct 2025",
    time := some "07:30 PM", day := some "Saturday",
    completed := some 1, is_cancel := some 0, is_started := some 1,
    result := some "2 - 1", match_id := some 102, stat_match_id := some 202 }

/-- An invalid raw record: `match_id` missing. -/
def rawMissingId : RawMatch := { rawUp with match_id := none }

/-- An invalid raw record: ticket link with a non-http(s) scheme. -/
def rawBadUrl : RawMatch := { rawUp with link := some "ftp://tickets.example.com/1" }

/-- An invalid raw record: result not matching the int - int pattern. -/
def rawBadResult : RawMatch := { rawCompleted with result := some "two - one" }

/-- An invalid raw record: unparseable `match_date`. -/
def rawBadDate : RawMatch := { rawUp with match_date := some "soon" }

/-- The three-record batch of the end-to-end scenario: one valid upcoming,
one valid completed, one missing `match_id`. -/
def rawBatch : List RawMatch := [rawUp, rawCompleted, rawMissingId]

/-- The normalized form of `rawUp`. -/
def mUp : MatchData :=
  { home_team := "Kerala Blasters", home_team_short_name := "KBFC",
    home_team_logo := "kbfc.png", away_team := "Calicut FC",
    away_team_logo := "cfc.png", away_team_short_name := "CFC",
    match_date := "2025-10-20 19:30:00", date := "20 Oct 2025",
    time := "07:30 PM", day := "Monday", match_time := none,
    venue := some "EMS Stadium", link := some "https://tickets.example.com/1",
    completed := 0, is_cancel := 0, is_started := 0, result := none,
    match_id := 101, stat_match_id := 201,
    home_scorers := [], away_scorers := [], full_video_url := none,
    broadcast := [⟨"SPORTS.COM", "sc.png", "https://old.example.com"⟩],
    highlight := {} }

/-- A record carrying both `completed = 1` and `is_cancel = 1`. -/
def mBoth : MatchData :=
  { home_team := "Forca Kochi", home_team_short_name := "FK",
    home_team_logo := "fk.png", away_team := "Malappuram FC",
    away_team_logo := "mfc.png", away_team_short_name := "MFC",
    match_date := "2025-10-18 19:30:00", date := "18 Oct 2025",
    time := "07:30 PM", day := "Saturday", match_time := none,
    venue := none, link := none,
    completed := 1, is_cancel := 1, is_started := 1, result := some "2 - 1",
    match_id := 102, stat_match_id := 202,
    home_scorers := [], away_scorers := [], full_video_url := none,
    broadcast := [], highlight := {} }

/-! Claim theorems. -/

/-- C1 counterexample: on a record with both `is_cancel = 1` and
`completed = 1` the title rendered by `format_match_for_calendar` is the
Completed-glyph form with the result suffix, not the Cancelled-glyph
"(Cancelled)" form: the claimed Cancelled > Completed priority is false. -/
theorem c1_both_flags_title_is_completed :
    mBoth.completed = 1 ∧ mBoth.is_cancel = 1
    ∧ (format_match_for_calendar mBoth).title
        = completedGlyph ++ " Forca Kochi vs Malappuram FC (2 - 1) | SLK \x2725"
    ∧ (format_match_for_calendar mBoth).title
        ≠ cancelledGlyph ++ " Forca Kochi vs Malappuram FC (Cancelled) | SLK \x2725" := by
  refine ⟨rfl, rfl, rfl, ?_⟩
  decide

/-- C1 (amended): status-glyph priority in title rendering is
Completed > Cancelled > Upcoming: for every record with `completed = 1`
the title is the Completed-glyph form and is entirely independent of the
cancellation flag. -/
theorem c1_completed_title_ignores_cancel (m : MatchData) (h : m.completed = 1)
    (b : Nat) :
    (format_match_for_calendar m).title
      = (format_match_for_calendar { m with is_cancel := b }).title
    ∧ ∃ rest, (format_match_for_calendar m).title = completedGlyph ++ rest := by
  constructor
  · simp [format_match_for_calendar, MatchData.is_completed, h]
  · simp only [format_match_for_calendar, MatchData.is_completed, h]
    by_cases hr : (m.result.getD "") != ""
    · refine ⟨" " ++ m.home_team ++ " vs " ++ m.away_team
        ++ " (" ++ m.result.getD "" ++ ") | SLK \x2725", ?_⟩
      simp [hr, String.append_assoc]
    · refine ⟨" " ++ m.home_team ++ " vs " ++ m.away_team
        ++ " (Completed) | SLK \x2725", ?_⟩
      simp [hr, String.append_assoc]

/-- Witness for C1's amended theorem at a concrete both-flags record. -/
theorem c1_completed_title_ignores_cancel_witness :
    mBoth.completed = 1
    ∧ ((format_match_for_calendar mBoth).title
        = (format_match_for_calendar { mBoth with is_cancel := 0 }).title
      ∧ ∃ rest, (format_match_for_calendar mBoth).title = completedGlyph ++ rest) :=
  ⟨rfl, c1_completed_title_ignores_cancel mBoth rfl 0⟩

/-- C2 counterexample: in a default-mode run over the 3-record batch the
completed record is filtered out by `get_upcoming_matches` before any
per-match processing, so the reported statistics are `created = 1` and
`skipped = 0` — not the claimed `skipped = 1` — even though the completed
record is itself valid. -/
theorem c2_default_mode_completed_not_counted :
    (sync_matches true {} rawBatch false).1
      = { created := 1, updated := 0, errors := 0, skipped := 0 }
    ∧ ¬(sync_matches true {} rawBatch false).1.skipped = 1
    ∧ (model_validate rawCompleted).isSome = true
    ∧ (get_upcoming_matches rawBatch).map MatchData.match_id = [101] := by
  have hstats : (sync_matches true {} rawBatch false).1
      = { created := 1, updated := 0, errors := 0, skipped := 0 } := by decide
  refine ⟨hstats, ?_, by decide, by decide⟩
  rw [hstats]
  decide

/-- C2 (amended): the per-match processor does reconcile a completed record
to `skipped` with no backend call in default mode, but the default-mode
pipeline never hands it one: `get_upcoming_matches` filters completed
records out at fetch, so the end-to-end 3-record run reports `created = 1`,
`skipped = 0` and zero errors, with the invalid record excluded at
normalization. -/
theorem c2_completed_skip_and_batch_stats (authOk : Bool) (b : Backend)
    (m : MatchData) (h : m.completed = 1) :
    process_single_match authOk b m false
      = ({ match_id := m.match_id, title := (format_match_for_calendar m).title,
           action := .skipped, success := false, errorMsg := none }, b)
    ∧ (sync_matches true {} rawBatch false).1
        = { created := 1, updated := 0, errors := 0, skipped := 0 }
    ∧ (get_upcoming_matches rawBatch).map MatchData.match_id = [101] := by
  refine ⟨?_, by decide, by decide⟩
  have hc : (format_match_for_calendar m).completed = 1 := by
    simp [format_match_for_calendar, h]
  unfold process_single_match
  cases hdt : (format_match_for_calendar m).datetime with
  | none => simp [hdt]
  | some dt => simp [hdt, hc]

/-- Witness for C2's amended theorem at a concrete completed record. -/
theorem c2_completed_skip_and_batch_stats_witness :
    mBoth.completed = 1
    ∧ (process_single_match true {} mBoth false
        = ({ match_id := mBoth.match_id,
             title := (format_match_for_calendar mBoth).title,
             action := .skipped, success := false, errorMsg := none }, {})
      ∧ (sync_matches true {} rawBatch false).1
          = { created := 1, updated := 0, errors := 0, skipped := 0 }
      ∧ (get_upcoming_matches rawBatch).map MatchData.match_id = [101]) :=
  ⟨by decide, c2_completed_skip_and_batch_stats true {} mBoth rfl⟩

/-! Shared projection lemmas about the formatter (definitional). -/

@[simp] theorem format_datetime_eq (m : MatchData) :
    (format_match_for_calendar m).datetime = parseMatchDate m.match_date := rfl

@[simp] theorem format_completed_eq (m : MatchData) :
    (format_match_for_calendar m).completed = m.completed := rfl

@[simp] theorem format_match_id_eq (m : MatchData) :
    (format_match_for_calendar m).match_id = m.match_id := rfl

/-- The event that `create_event` inserts for a formatted match on a fresh
backend (id supply at 0), given its schedule instant. -/
def createdEvent (m : MatchData) (dt : PyDateTime) : CalEvent :=
  { id := "event-0",
    summary := (format_match_for_calendar m).title,
    description := format_event_description (format_match_for_calendar m),
    start := some ⟨dt, TIMEZONE⟩,
    end_ := some ⟨dt.addHours EVENT_DURATION_HOURS, TIMEZONE⟩,
    location := (format_match_for_calendar m).venue,
    reminders := some ⟨false, [⟨"popup", 60⟩]⟩,
    source := some ⟨"Super League Kerala", "https://www.superleaguekerala.com"⟩,
    extendedPropertiesPrivate := some [("slk_match_id", toString m.match_id)],
    recurringEventId := none,
    otherFields := [] }

/-- C3: reconciling the same record twice against an initially empty,
healthy backend yields `created` then `updated`: the first pass inserts
exactly one event carrying the `slk_match_id` private extended property
equal to the record's match id as a string, and the second pass's
tracking-key lookup finds it. -/
theorem c3_reconcile_twice_created_then_updated (m : MatchData)
    (dt : PyDateTime) (hdt : parseMatchDate m.match_date = some dt)
    (hid : m.match_id ≠ 0) :
    (process_single_match true {} m true).1.action = .created
    ∧ (∃ ev, (process_single_match true {} m true).2.events = [ev]
        ∧ ev.extendedPropertiesPrivate
            = some [("slk_match_id", toString m.match_id)])
    ∧ (process_single_match true (process_single_match true {} m true).2
        m true).1.action = .updated := by
  have hbne : (m.match_id != 0) = true := by simp [hid]
  have h1 : process_single_match true {} m true
      = ({ match_id := m.match_id, title := (format_match_for_calendar m).title,
           action := .created, success := true, errorMsg := none },
         { events := [createdEvent m dt], nextId := 1, insertCalls := 1 }) := by
    simp [process_single_match, hdt, hbne, find_event_by_match_id,
      create_event, createdEvent, Backend.mk.injEq]
    decide
  refine ⟨by rw [h1], ⟨createdEvent m dt, by rw [h1], rfl⟩, ?_⟩
  rw [h1]
  simp [process_single_match, hdt, hbne, find_event_by_match_id,
    update_event, createdEvent]

/-- Witness for C3 at the concrete upcoming record. -/
theorem c3_reconcile_twice_created_then_updated_witness :
    parseMatchDate mUp.match_date = some ⟨2025, 10, 20, 19, 30, 0⟩
    ∧ mUp.match_id ≠ 0
    ∧ ((process_single_match true {} mUp true).1.action = .created
      ∧ (∃ ev, (process_single_match true {} mUp true).2.events = [ev]
          ∧ ev.extendedPropertiesPrivate
              = some [("slk_match_id", toString mUp.match_id)])
      ∧ (process_single_match true (process_single_match true {} mUp true).2
          mUp true).1.action = .updated) :=
  ⟨by decide, by decide,
   c3_reconcile_twice_created_then_updated mUp ⟨2025, 10, 20, 19, 30, 0⟩
     (by decide) (by decide)⟩

/-- A backend whose list call raises `HttpError`. -/
def backendListFails : Backend := { listFails := true }

/-- C4: in full-refresh mode a failed authentication returns the single
fatal "Authentication failed" status with the backend untouched, and a
failed clear-all step returns the single fatal "Failed to clear events"
status with no event mutated and no create/update call issued — never
partial created/updated/skipped/error statistics. -/
theorem c4_full_refresh_aborts_on_precondition_failure (b : Backend)
    (raw : List RawMatch) :
    full_refresh false b raw = (.error "Authentication failed", b)
    ∧ (b.listFails = true →
        full_refresh true b raw
          = (.error "Failed to clear events",
             { b with listCalls := b.listCalls + 1 })
        ∧ (full_refresh true b raw).2.events = b.events
        ∧ (full_refresh true b raw).2.insertCalls = b.insertCalls
        ∧ (full_refresh true b raw).2.updateCalls = b.updateCalls
        ∧ (full_refresh true b raw).2.deleteCalls = b.deleteCalls) := by
  refine ⟨rfl, fun h => ?_⟩
  have hc : full_refresh true b raw
      = (.error "Failed to clear events",
         { b with listCalls := b.listCalls + 1 }) := by
    simp [full_refresh, clear_all_events, h]
  exact ⟨hc, by rw [hc], by rw [hc], by rw [hc], by rw [hc]⟩

/-- Witness for C4 at a concrete backend whose clear step fails. -/
theorem c4_full_refresh_aborts_on_precondition_failure_witness :
    full_refresh false backendListFails rawBatch
      = (.error "Authentication failed", backendListFails)
    ∧ full_refresh true backendListFails rawBatch
      = (.error "Failed to clear events",
         { backendListFails with listCalls := backendListFails.listCalls + 1 }) :=
  ⟨(c4_full_refresh_aborts_on_precondition_failure backendListFails rawBatch).1,
   ((c4_full_refresh_aborts_on_precondition_failure backendListFails rawBatch).2
      rfl).1⟩

/-- C5: `_fix_broadcast_urls` replaces a channel's link with the canonical
table URL exactly when its name is one of the four table keys, keeps the
feed-supplied link verbatim for any other name, and never alters name or
logo. -/
theorem c5_broadcast_url_rewrite (chs : List BroadcastChannel) (i : Nat)
    (c : BroadcastChannel) (h : chs[i]? = some c) :
    ∃ c2, (fix_broadcast_urls chs)[i]? = some c2
      ∧ c2.name = c.name ∧ c2.logo = c.logo
      ∧ (c.name = "SPORTS.COM" → c2.link = "https://sports.com/en/slk")
      ∧ (c.name = "SONY SPORTS" → c2.link = "https://www.sonysportsnetwork.com/")
      ∧ (c.name = "DD MALAYALAM" →
          c2.link = "https://prasarbharati.gov.in/dd-malayalam/")
      ∧ (c.name = "ETISALAT" → c2.link = "https://www.etisalat.ae")
      ∧ (c.name ≠ "SPORTS.COM" → c.name ≠ "SONY SPORTS" →
          c.name ≠ "DD MALAYALAM" → c.name ≠ "ETISALAT" →
          c2.link = c.link) := by
  refine ⟨{ name := c.name, logo := c.logo,
            link := (url_mappings c.name).getD c.link },
    ?_, rfl, rfl, ?_, ?_, ?_, ?_, ?_⟩
  · simp [fix_broadcast_urls, List.getElem?_map, h]
  · intro hn; simp [url_mappings, hn]
  · intro hn; simp [url_mappings, hn]
  · intro hn; simp [url_mappings, hn]
  · intro hn; simp [url_mappings, hn]
  · intro h1 h2 h3 h4
    simp [url_mappings, beq_iff_eq, h1, h2, h3, h4]

/-- Witness for C5 at a concrete table-keyed channel. -/
theorem c5_broadcast_url_rewrite_witness :
    ([⟨"SPORTS.COM", "sc.png", "https://old.example.com"⟩]
        : List BroadcastChannel)[0]?
      = some ⟨"SPORTS.COM", "sc.png", "https://old.example.com"⟩
    ∧ ∃ c2, (fix_broadcast_urls
          [⟨"SPORTS.COM", "sc.png", "https://old.example.com"⟩])[0]?
        = some c2
      ∧ c2.name = "SPORTS.COM" ∧ c2.logo = "sc.png"
      ∧ ("SPORTS.COM" = "SPORTS.COM" → c2.link = "https://sports.com/en/slk")
      ∧ ("SPORTS.COM" = "SONY SPORTS" →
          c2.link = "https://www.sonysportsnetwork.com/")
      ∧ ("SPORTS.COM" = "DD MALAYALAM" →
          c2.link = "https://prasarbharati.gov.in/dd-malayalam/")
      ∧ ("SPORTS.COM" = "ETISALAT" → c2.link = "https://www.etisalat.ae")
      ∧ ("SPORTS.COM" ≠ "SPORTS.COM" → "SPORTS.COM" ≠ "SONY SPORTS" →
          "SPORTS.COM" ≠ "DD MALAYALAM" → "SPORTS.COM" ≠ "ETISALAT" →
          c2.link = "https://old.example.com") :=
  ⟨rfl, c5_broadcast_url_rewrite
    [⟨"SPORTS.COM", "sc.png", "https://old.example.com"⟩] 0
    ⟨"SPORTS.COM", "sc.png", "https://old.example.com"⟩ rfl⟩

/-- C6: one rejected record never disturbs the rest of the batch — the
fetch of a batch containing an invalid record equals the concatenation of
the fetches around it — and a batch whose records are all invalid yields an
empty valid-record list and an all-zero statistics result, not an error. -/
theorem c6_rejection_is_per_record_and_nonfatal (raw1 raw2 : List RawMatch)
    (r : RawMatch) (hr : model_validate r = none) (raw : List RawMatch)
    (hall : ∀ x ∈ raw, model_validate x = none) (authOk : Bool)
    (b : Backend) :
    fetch_matches (raw1 ++ r :: raw2) = fetch_matches raw1 ++ fetch_matches raw2
    ∧ fetch_matches raw = []
    ∧ sync_matches authOk b raw false = ({}, b)
    ∧ sync_matches authOk b raw true = ({}, b) := by
  have hnil : fetch_matches raw = [] := by
    simp only [fetch_matches, List.filterMap_eq_nil_iff]
    exact hall
  refine ⟨?_, hnil, ?_, ?_⟩
  · simp [fetch_matches, List.filterMap_append, List.filterMap_cons, hr]
  · simp [sync_matches, get_upcoming_matches, hnil]
  · simp [sync_matches, hnil]

/-- Witness for C6: each single-field violation (missing `match_id`,
non-http(s) URL, out-of-pattern result, unparseable date) is rejected,
and an all-invalid batch gives empty output and zero statistics. -/
theorem c6_rejection_is_per_record_and_nonfatal_witness :
    model_validate rawMissingId = none
    ∧ model_validate rawBadUrl = none
    ∧ model_validate rawBadResult = none
    ∧ model_validate rawBadDate = none
    ∧ (fetch_matches ([rawUp] ++ rawMissingId :: [rawCompleted])
        = fetch_matches [rawUp] ++ fetch_matches [rawCompleted]
      ∧ fetch_matches [rawBadUrl, rawBadResult, rawBadDate] = []
      ∧ sync_matches true {} [rawBadUrl, rawBadResult, rawBadDate] false
          = ({}, {})
      ∧ sync_matches true {} [rawBadUrl, rawBadResult, rawBadDate] true
          = ({}, {})) :=
  ⟨by decide, by decide, by decide, by decide,
   c6_rejection_is_per_record_and_nonfatal [rawUp] [rawCompleted] rawMissingId
     (by decide) [rawBadUrl, rawBadResult, rawBadDate] (by decide) true {}⟩

/-- C7: when the tracking-key lookup found an event, `update_event` pushes
back the fetched event with exactly summary, description and location
overwritten, plus the start/end window exactly when a schedule instant is
supplied; every other stored field (reminders, source, tracking key,
recurrence, id, any other backend-side field) rides along unchanged, and
the call reports success true, or false on a backend failure. -/
theorem c7_update_event_frame (b : Backend) (event_id : String)
    (fm : FormattedMatch) (ev : CalEvent)
    (hfind : b.events.find? (fun e => e.id == event_id) = some ev)
    (hget : b.getFails = false) :
    (∀ dt, fm.datetime = some dt → b.updateFails = false →
      update_event b event_id fm
        = (true, { b with
            events := b.events.map fun e =>
              if e.id == event_id then
                { ev with summary := fm.title,
                          description := format_event_description fm,
                          location := fm.venue,
                          start := some ⟨dt, TIMEZONE⟩,
                          end_ := some ⟨dt.addHours EVENT_DURATION_HOURS,
                                        TIMEZONE⟩ }
              else e,
            getCalls := b.getCalls + 1, updateCalls := b.updateCalls + 1 }))
    ∧ (fm.datetime = none → b.updateFails = false →
      update_event b event_id fm
        = (true, { b with
            events := b.events.map fun e =>
              if e.id == event_id then
                { ev with summary := fm.title,
                          description := format_event_description fm,
                          location := fm.venue }
              else e,
            getCalls := b.getCalls + 1, updateCalls := b.updateCalls + 1 }))
    ∧ (b.updateFails = true → (update_event b event_id fm).1 = false) := by
  refine ⟨?_, ?_, ?_⟩
  · intro dt hdt hupd
    simp [update_event, hget, hfind, hdt, hupd]
  · intro hdt hupd
    simp [update_event, hget, hfind, hdt, hupd]
  · intro hupd
    simp [update_event, hget, hfind, hupd]

/-- The schedule instant of `mUp`. -/
def dtUp : PyDateTime := ⟨2025, 10, 20, 19, 30, 0⟩

/-- The formatted form of `mUp`. -/
def fmUp : FormattedMatch := format_match_for_calendar mUp

/-- A stored calendar event for `mUp`. -/
def evFix : CalEvent := createdEvent mUp dtUp

/-- A healthy backend holding exactly `evFix`. -/
def bEv : Backend := { events := [evFix] }

set_option maxRecDepth 8192 in
/-- Witness for C7 at a concrete one-event backend. -/
theorem c7_update_event_frame_witness :
    bEv.events.find? (fun e => e.id == "event-0") = some evFix
    ∧ bEv.getFails = false
    ∧ fmUp.datetime = some dtUp
    ∧ update_event bEv "event-0" fmUp
      = (true, { bEv with
          events := bEv.events.map fun e =>
            if e.id == "event-0" then
              { evFix with summary := fmUp.title,
                           description := format_event_description fmUp,
                           location := fmUp.venue,
                           start := some ⟨dtUp, TIMEZONE⟩,
                           end_ := some ⟨dtUp.addHours EVENT_DURATION_HOURS,
                                         TIMEZONE⟩ }
            else e,
          getCalls := bEv.getCalls + 1,
          updateCalls := bEv.updateCalls + 1 }) :=
  ⟨by decide, rfl, by decide,
   (c7_update_event_frame bEv "event-0" fmUp evFix (by decide) rfl).1
     dtUp (by decide) rfl⟩

/-- C8: normalization guarantees the schedule parse: every `MatchData`
produced by `model_validate` has `get_datetime` returning a value, so the
reconciler's missing-datetime skip branch is unreachable for normalized
records. -/
theorem c8_validated_record_has_datetime (r : RawMatch) (m : MatchData)
    (h : model_validate r = some m) :
    ∃ dt, m.get_datetime = some dt
      ∧ (format_match_for_calendar m).datetime = some dt := by
  unfold model_validate at h
  split at h
  · split at h
    · rename_i hcond
      obtain ⟨_, _, _, _, _, hds, _, _, _⟩ := hcond
      obtain ⟨dt, hdt⟩ := Option.isSome_iff_exists.mp hds
      injection h with hm
      subst hm
      exact ⟨dt, by simpa [MatchData.get_datetime] using hdt,
        by simpa using hdt⟩
    · exact Option.noConfusion h
  all_goals exact Option.noConfusion h

/-- Witness for C8 at the concrete valid raw record. -/
theorem c8_validated_record_has_datetime_witness :
    model_validate rawUp = some mUp
    ∧ ∃ dt, mUp.get_datetime = some dt
        ∧ (format_match_for_calendar mUp).datetime = some dt :=
  ⟨by decide, c8_validated_record_has_datetime rawUp mUp (by decide)⟩

/-- C9: a listing `HttpError` during the tracking-key lookup returns
`none`, exactly like a genuine not-found, so the reconciler proceeds to
create a new event (action `created`, not `error`): at the reconciler's
decision point a lookup-time backend fault is indistinguishable from
absence. -/
theorem c9_lookup_fault_treated_as_absence (b : Backend) (mid : Nat)
    (m : MatchData) (dt : PyDateTime) (hb : b.listFails = true)
    (hdt : parseMatchDate m.match_date = some dt) (hid : m.match_id ≠ 0)
    (hins : b.insertFails = false) :
    find_event_by_match_id b mid = none
    ∧ (process_single_match true b m true).1.action = .created
    ∧ (process_single_match true b m true).1.action
      = (process_single_match true
          { b with events := [], listFails := false } m true).1.action := by
  have hbne : (m.match_id != 0) = true := by simp [hid]
  have hfind : find_event_by_match_id b mid = none := by
    simp [find_event_by_match_id, hb]
  have h1 : (process_single_match true b m true).1.action = .created := by
    simp [process_single_match, hdt, hbne, find_event_by_match_id, hb,
      create_event, hins]
  have h2 : (process_single_match true
      { b with events := [], listFails := false } m true).1.action
        = .created := by
    simp [process_single_match, hdt, hbne, find_event_by_match_id,
      create_event, hins]
  exact ⟨hfind, h1, h1.trans h2.symm⟩

/-- Witness for C9 at a concrete faulty-listing backend. -/
theorem c9_lookup_fault_treated_as_absence_witness :
    backendListFails.listFails = true
    ∧ parseMatchDate mUp.match_date = some dtUp
    ∧ mUp.match_id ≠ 0
    ∧ backendListFails.insertFails = false
    ∧ (find_event_by_match_id backendListFails 101 = none
      ∧ (process_single_match true backendListFails mUp true).1.action
          = .created
      ∧ (process_single_match true backendListFails mUp true).1.action
        = (process_single_match true
            { backendListFails with events := [], listFails := false }
            mUp true).1.action) :=
  ⟨rfl, by decide, by decide, rfl,
   c9_lookup_fault_treated_as_absence backendListFails 101 mUp dtUp rfl
     (by decide) (by decide) rfl⟩

/-- C10: `clear_all_events` reports success exactly when the initial
listing succeeds — per-event delete failures (any subset of events,
including all of them) are caught and skipped — and reports failure only
when the listing itself raises. -/
theorem c10_clear_all_events_success_iff_listing (b : Backend) :
    (clear_all_events b).1 = !b.listFails := by
  by_cases hb : b.listFails <;> simp [clear_all_events, hb]

end SLK
